import Mathlib

/-!
Verification of the plugin identifier resolver in
`tools/legacy/sample_common/src/plugin_utils.cpp`.

The resolver consists of three functions:
* `AreGuidsEqual` — byte-wise comparison of two 16-byte plugin identifiers;
* `ConvertStringToGuid` — resolves a string to an identifier, first by a
  fixed symbolic-name table, then (on a miss) by decoding a 32-character
  hexadecimal string two characters per byte via `istringstream >> std::hex`;
* `msdkGetPluginUID` — a nested-switch decision table from
  (implementation, component type, codec id) to a default identifier.

Machine integers are modelled as `Nat` with explicit `% 2 ^ w` where the
C code truncates.  The platform preprocessor conditionals (`ANDROID`,
`_WIN32`/`_WIN64`) are modelled as explicit boolean parameters `android`
and `windows`, following the spec's direction that platform-conditional
branches become explicit capability flags.
-/

/-- A 16-byte plugin identifier (`mfxPluginUID` has `mfxU8 Data[16]`).
Bytes are `Nat` values; every value the code stores is reduced `% 256`. -/
structure mfxPluginUID where
  Data : Fin 16 → Nat

instance : DecidableEq mfxPluginUID := fun a b =>
  decidable_of_iff (a.Data = b.Data) (by cases a; cases b; simp)

/-- Status `MFX_ERR_NONE = 0`: success. -/
def MFX_ERR_NONE : Int := 0

/-- Status `MFX_ERR_UNKNOWN = -1`: the unrecognized-identifier error. -/
def MFX_ERR_UNKNOWN : Int := -1

/-- The null identifier `MSDK_PLUGINGUID_NULL`: all 16 bytes zero. -/
def MSDK_PLUGINGUID_NULL : mfxPluginUID := ⟨fun _ => 0⟩

/-- Modelled from the spec: the concrete 16 bytes of each `MFX_PLUGINID_*`
constant live in the API headers (`vpl/mfxplugin.h`), which are not under
`src/`.  The spec treats them as fixed, pairwise-distinct 16-byte
constants, so each is modelled as a distinct tag value in byte 0. -/
def mkPluginConst (tag : Nat) : mfxPluginUID := ⟨fun i => if i.val = 0 then tag else 0⟩

/-- Modelled from the spec: software HEVC decoder identifier. -/
def MFX_PLUGINID_HEVCD_SW : mfxPluginUID := mkPluginConst 1

/-- Modelled from the spec: hardware HEVC decoder identifier. -/
def MFX_PLUGINID_HEVCD_HW : mfxPluginUID := mkPluginConst 2

/-- Modelled from the spec: software HEVC encoder identifier. -/
def MFX_PLUGINID_HEVCE_SW : mfxPluginUID := mkPluginConst 3

/-- Modelled from the spec: GPU-accelerated HEVC encoder identifier. -/
def MFX_PLUGINID_HEVCE_GACC : mfxPluginUID := mkPluginConst 4

/-- Modelled from the spec: hardware HEVC encoder identifier. -/
def MFX_PLUGINID_HEVCE_HW : mfxPluginUID := mkPluginConst 5

/-- Modelled from the spec: hardware VP8 decoder identifier. -/
def MFX_PLUGINID_VP8D_HW : mfxPluginUID := mkPluginConst 6

/-- Modelled from the spec: hardware VP8 encoder identifier. -/
def MFX_PLUGINID_VP8E_HW : mfxPluginUID := mkPluginConst 7

/-- Modelled from the spec: hardware VP9 decoder identifier. -/
def MFX_PLUGINID_VP9D_HW : mfxPluginUID := mkPluginConst 8

/-- Modelled from the spec: hardware VP9 encoder identifier. -/
def MFX_PLUGINID_VP9E_HW : mfxPluginUID := mkPluginConst 9

/-- Modelled from the spec: hardware camera pipe identifier. -/
def MFX_PLUGINID_CAMERA_HW : mfxPluginUID := mkPluginConst 10

/-- Modelled from the spec: hardware screen capture identifier. -/
def MFX_PLUGINID_CAPTURE_HW : mfxPluginUID := mkPluginConst 11

/-- Modelled from the spec: hardware inverse-telecine identifier. -/
def MFX_PLUGINID_ITELECINE_HW : mfxPluginUID := mkPluginConst 12

/-- Modelled from the spec: hardware H264 lookahead identifier. -/
def MFX_PLUGINID_H264LA_HW : mfxPluginUID := mkPluginConst 13

/-- Modelled from the spec: AAC decoder identifier. -/
def MFX_PLUGINID_AACD : mfxPluginUID := mkPluginConst 14

/-- Modelled from the spec: AAC encoder identifier. -/
def MFX_PLUGINID_AACE : mfxPluginUID := mkPluginConst 15

/-- Modelled from the spec: HEVC FEI identifier for the ENC interface
variant; the spec requires it distinct from `MFX_PLUGINID_HEVC_FEI_ENCODE`. -/
def MFX_PLUGINID_HEVCE_FEI_HW : mfxPluginUID := mkPluginConst 16

/-- Modelled from the spec: HEVC FEI-encode identifier (non-Windows
hardware Encode+FEI default); distinct from `MFX_PLUGINID_HEVCE_FEI_HW`. -/
def MFX_PLUGINID_HEVC_FEI_ENCODE : mfxPluginUID := mkPluginConst 17

/-- Embedding of `bool AreGuidsEqual(const mfxPluginUID&, const mfxPluginUID&)`:
loops over all `sizeof(mfxPluginUID)` = 16 bytes, returning `false` at the
first mismatch and `true` if none mismatches. -/
def AreGuidsEqual (guid1 guid2 : mfxPluginUID) : Bool :=
  (List.finRange 16).all fun i => guid1.Data i == guid2.Data i

/-- The fixed symbolic-name table built inside `ConvertStringToGuid`
(a `std::map<msdk_string, mfxPluginUID>` with these 16 entries). -/
def uidTable : List (String × mfxPluginUID) :=
  [("hevcd_sw", MFX_PLUGINID_HEVCD_SW),
   ("hevcd_hw", MFX_PLUGINID_HEVCD_HW),
   ("hevce_sw", MFX_PLUGINID_HEVCE_SW),
   ("hevce_gacc", MFX_PLUGINID_HEVCE_GACC),
   ("hevce_hw", MFX_PLUGINID_HEVCE_HW),
   ("vp8d_hw", MFX_PLUGINID_VP8D_HW),
   ("vp8e_hw", MFX_PLUGINID_VP8E_HW),
   ("vp9d_hw", MFX_PLUGINID_VP9D_HW),
   ("vp9e_hw", MFX_PLUGINID_VP9E_HW),
   ("camera_hw", MFX_PLUGINID_CAMERA_HW),
   ("capture_hw", MFX_PLUGINID_CAPTURE_HW),
   ("ptir_hw", MFX_PLUGINID_ITELECINE_HW),
   ("h264_la_hw", MFX_PLUGINID_H264LA_HW),
   ("aacd", MFX_PLUGINID_AACD),
   ("aace", MFX_PLUGINID_AACE),
   ("hevce_fei_hw", MFX_PLUGINID_HEVCE_FEI_HW)]

/-- Lookup `uid.find(strGuid)`: exact match in the symbolic-name table. -/
def findUID (s : String) : Option mfxPluginUID :=
  (uidTable.find? fun p => p.1 == s).map (·.2)

/-- Hexadecimal digit value of a character, `none` for a non-hex character
(`0`-`9`, `a`-`f`, `A`-`F`; code points 48-57, 97-102, 65-70). -/
def hexDigitVal (c : Char) : Option Nat :=
  if 48 ≤ c.toNat ∧ c.toNat ≤ 57 then some (c.toNat - 48)
  else if 97 ≤ c.toNat ∧ c.toNat ≤ 102 then some (c.toNat - 87)
  else if 65 ≤ c.toNat ∧ c.toNat ≤ 70 then some (c.toNat - 55)
  else none

/-- C-locale `isspace`, used by the extractor's leading whitespace skip:
space (32) and the control characters 9-13. -/
def isCSpace (c : Char) : Bool :=
  decide (c.toNat = 32 ∨ (9 ≤ c.toNat ∧ c.toNat ≤ 13))

/-- Optional leading sign accepted by `num_get`: returns (negative, rest). -/
def splitSign : List Char → Bool × List Char
  | c :: rest =>
    if c = '-' then (true, rest)
    else if c = '+' then (false, rest)
    else (false, c :: rest)
  | [] => (false, [])

/-- Optional `0x`/`0X` base marker accepted by `num_get` in hex mode. -/
def stripHexMarker : List Char → List Char
  | c0 :: c1 :: rest =>
    if c0 = '0' ∧ (c1 = 'x' ∨ c1 = 'X') then rest else c0 :: c1 :: rest
  | l => l

/-- Greedily accumulate the leading run of hex digits. -/
def readHexDigits : List Char → Nat → Nat
  | [], acc => acc
  | c :: cs, acc =>
    match hexDigitVal c with
    | some v => readHexDigits cs (acc * 16 + v)
    | none => acc

/-- Semantics of `istringstream >> std::hex >> (unsigned int)`: skip leading whitespace,
accept an optional sign and an optional `0x` marker, read the longest run
of hex digits, and truncate to 32 bits (a `-` sign negates modulo `2^32`).
When extraction fails (no digit read) the stored value is 0 (C++11), which
coincides with the accumulator.  The inputs here are 2-character pairs, so
the value never exceeds 255 and no overflow clamping can occur. -/
def extractStream (cs : List Char) : Nat :=
  let t := splitSign (cs.dropWhile isCSpace)
  let v := readHexDigits (stripHexMarker t.2) 0
  if t.1 then (2 ^ 32 - v % 2 ^ 32) % 2 ^ 32 else v % 2 ^ 32

/-- Character of `s` at index `n` (a statement helper; all uses are within
bounds, where the default is never returned). -/
def charAt (s : String) (n : Nat) : Char := s.toList.getD n ' '

/-- Hex value of a character with the 0 default (a statement helper). -/
def hexValN (c : Char) : Nat := (hexDigitVal c).getD 0

/-- Embedding of `mfxStatus ConvertStringToGuid(const msdk_string&, mfxPluginUID&)`:
look the string up in the symbolic table; on a miss set the out-parameter
to the null identifier with `MFX_ERR_UNKNOWN`, then, if the string has
exactly 32 characters, overwrite byte `i` with the stream-extracted value
of `strGuid.substr(i * 2, 2)` cast to `mfxU8` and return `MFX_ERR_NONE`.
The status and the out-parameter are returned as a pair. -/
def ConvertStringToGuid (strGuid : String) : Int × mfxPluginUID :=
  match findUID strGuid with
  | some g => (MFX_ERR_NONE, g)
  | none =>
    if strGuid.length ≠ 32 then (MFX_ERR_UNKNOWN, MSDK_PLUGINGUID_NULL)
    else
      (MFX_ERR_NONE,
       ⟨fun i => extractStream ((strGuid.toList.drop (i.val * 2)).take 2) % 256⟩)

/-- Modelled from the spec: `MFX_IMPL_AUTO` from the API headers (not under
`src/`); an implementation value other than the software one. -/
def MFX_IMPL_AUTO : Nat := 0

/-- Modelled from the spec: `MFX_IMPL_SOFTWARE` from the API headers (not
under `src/`); the software implementation class. -/
def MFX_IMPL_SOFTWARE : Nat := 1

/-- Modelled from the spec: `MFX_IMPL_HARDWARE` from the API headers (not
under `src/`); the hardware implementation class. -/
def MFX_IMPL_HARDWARE : Nat := 2

/-- Modelled from the spec: `MSDK_VDECODE` from `plugin_utils.h` (not under
`src/`); the decode component role, a distinct bit flag. -/
def MSDK_VDECODE : Nat := 1

/-- Modelled from the spec: `MSDK_VENCODE` from `plugin_utils.h` (not under
`src/`); the encode component role, a distinct bit flag. -/
def MSDK_VENCODE : Nat := 2

/-- Modelled from the spec: `MSDK_VENC` from `plugin_utils.h` (not under
`src/`); the ENC-only component role, a distinct bit flag. -/
def MSDK_VENC : Nat := 8

/-- Modelled from the spec: `MSDK_FEI` from `plugin_utils.h` (not under
`src/`); the FEI modifier flag, combined with `MSDK_VENCODE` by bitwise or. -/
def MSDK_FEI : Nat := 4096

/-- Modelled from the spec: `MFX_CODEC_HEVC` fourcc from the API headers
(not under `src/`). -/
def MFX_CODEC_HEVC : Nat := 0x43564548

/-- Modelled from the spec: `MFX_CODEC_VP8` fourcc from the API headers
(not under `src/`). -/
def MFX_CODEC_VP8 : Nat := 0x20385056

/-- Modelled from the spec: `MFX_CODEC_VP9` fourcc from the API headers
(not under `src/`). -/
def MFX_CODEC_VP9 : Nat := 0x20395056

/-- Embedding of `msdkGetPluginUID(mfxIMPL, msdkComponentType, mfxU32)`: the nested
switch from (implementation, component type, codec id) to a default
identifier.  `android` models `#if !defined(ANDROID)` (the hardware decode
cases are compiled out when `android = true`); `windows` models
`#if !defined(_WIN32) && !defined(_WIN64)` (the hardware Encode+FEI case is
compiled out when `windows = true`).  Every unmatched combination falls
through to `MSDK_PLUGINGUID_NULL`. -/
def msdkGetPluginUID (android windows : Bool) (impl : Nat) (type : Nat)
    (uCodecid : Nat) : mfxPluginUID :=
  if impl = MFX_IMPL_SOFTWARE then
    if type = MSDK_VDECODE then
      if uCodecid = MFX_CODEC_HEVC then MFX_PLUGINID_HEVCD_SW
      else MSDK_PLUGINGUID_NULL
    else if type = MSDK_VENCODE then
      if uCodecid = MFX_CODEC_HEVC then MFX_PLUGINID_HEVCE_SW
      else MSDK_PLUGINGUID_NULL
    else MSDK_PLUGINGUID_NULL
  else
    if android = false ∧ type = MSDK_VDECODE then
      if uCodecid = MFX_CODEC_HEVC then MFX_PLUGINID_HEVCD_HW
      else if uCodecid = MFX_CODEC_VP8 then MFX_PLUGINID_VP8D_HW
      else if uCodecid = MFX_CODEC_VP9 then MFX_PLUGINID_VP9D_HW
      else MSDK_PLUGINGUID_NULL
    else if type = MSDK_VENCODE then
      if uCodecid = MFX_CODEC_HEVC then MFX_PLUGINID_HEVCE_HW
      else if uCodecid = MFX_CODEC_VP8 then MFX_PLUGINID_VP8E_HW
      else MSDK_PLUGINGUID_NULL
    else if windows = false ∧ type = (MSDK_VENCODE ||| MSDK_FEI) then
      if uCodecid = MFX_CODEC_HEVC then MFX_PLUGINID_HEVC_FEI_ENCODE
      else MSDK_PLUGINGUID_NULL
    else if type = MSDK_VENC then
      if uCodecid = MFX_CODEC_HEVC then MFX_PLUGINID_HEVCE_FEI_HW
      else MSDK_PLUGINGUID_NULL
    else MSDK_PLUGINGUID_NULL

/-- Hex digit character for a value below 16 (`upper` selects `A`-`F`
over `a`-`f`). -/
def hexChar (upper : Bool) (n : Nat) : Char :=
  if n < 10 then Char.ofNat (48 + n)
  else Char.ofNat ((if upper then 55 else 87) + n)

/-- Render the 16 bytes of an identifier as its 32-character hexadecimal
string, two digits per byte in byte order, most-significant nibble first. -/
def guidToHexString (upper : Bool) (g : mfxPluginUID) : String :=
  ⟨(List.finRange 16).flatMap fun i =>
    [hexChar upper (g.Data i / 16 % 16), hexChar upper (g.Data i % 16)]⟩

/-! ### Helper lemmas about the hexadecimal stream extractor -/

lemma hexDigitVal_some_toNat {c : Char} {v : Nat} (h : hexDigitVal c = some v) :
    (48 ≤ c.toNat ∧ c.toNat ≤ 57) ∨ (97 ≤ c.toNat ∧ c.toNat ≤ 102) ∨
      (65 ≤ c.toNat ∧ c.toNat ≤ 70) := by
  unfold hexDigitVal at h
  split_ifs at h with h1 h2 h3
  · exact Or.inl h1
  · exact Or.inr (Or.inl h2)
  · exact Or.inr (Or.inr h3)

lemma hexDigitVal_some_le {c : Char} {v : Nat} (h : hexDigitVal c = some v) :
    v ≤ 15 := by
  unfold hexDigitVal at h
  split_ifs at h with h1 h2 h3
  · injection h with h'; omega
  · injection h with h'; omega
  · injection h with h'; omega

lemma isCSpace_eq_false_of_hex {c : Char} {v : Nat} (h : hexDigitVal c = some v) :
    isCSpace c = false := by
  have hr := hexDigitVal_some_toNat h
  unfold isCSpace
  simp only [decide_eq_false_iff_not]
  omega

lemma hex_ne_char {c : Char} {v : Nat} (h : hexDigitVal c = some v) (d : Char)
    (hd : d.toNat < 48 ∨ (57 < d.toNat ∧ d.toNat < 65) ∨
      (70 < d.toNat ∧ d.toNat < 97) ∨ 102 < d.toNat) : c ≠ d := by
  have hr := hexDigitVal_some_toNat h
  intro he
  subst he
  omega

lemma readHexDigits_cons_none {c : Char} {cs : List Char} {acc : Nat}
    (h : hexDigitVal c = none) : readHexDigits (c :: cs) acc = acc := by
  simp [readHexDigits, h]

lemma readHexDigits_all_nonhex {l : List Char} (acc : Nat)
    (h : ∀ c ∈ l, hexDigitVal c = none) : readHexDigits l acc = acc := by
  cases l with
  | nil => rfl
  | cons c cs => exact readHexDigits_cons_none (h c (List.mem_cons_self c cs))

lemma stripHexMarker_all_nonhex {l : List Char}
    (h : ∀ c ∈ l, hexDigitVal c = none) : stripHexMarker l = l := by
  cases l with
  | nil => rfl
  | cons c0 t =>
    cases t with
    | nil => rfl
    | cons c1 r =>
      simp only [stripHexMarker]
      rw [if_neg]
      rintro ⟨h0, -⟩
      have := h c0 (List.mem_cons_self c0 (c1 :: r))
      rw [h0] at this
      exact Option.noConfusion this

lemma splitSign_snd_subset (l : List Char) : (splitSign l).2 ⊆ l := by
  cases l with
  | nil => simp [splitSign]
  | cons c rest =>
    simp only [splitSign]
    split_ifs <;> simp [List.subset_cons_self]

lemma extractStream_all_nonhex {cs : List Char}
    (h : ∀ c ∈ cs, hexDigitVal c = none) : extractStream cs = 0 := by
  have h1 : ∀ c ∈ cs.dropWhile isCSpace, hexDigitVal c = none :=
    fun c hc => h c ((List.dropWhile_sublist isCSpace).subset hc)
  have h2 : ∀ c ∈ (splitSign (cs.dropWhile isCSpace)).2, hexDigitVal c = none :=
    fun c hc => h1 c (splitSign_snd_subset _ hc)
  simp only [extractStream]
  rw [stripHexMarker_all_nonhex h2, readHexDigits_all_nonhex 0 h2]
  cases (splitSign (cs.dropWhile isCSpace)).1 <;> simp

lemma extractStream_pair_hex {c0 c1 : Char} {v0 v1 : Nat}
    (h0 : hexDigitVal c0 = some v0) (h1 : hexDigitVal c1 = some v1) :
    extractStream [c0, c1] = 16 * v0 + v1 := by
  have hs0 : isCSpace c0 = false := isCSpace_eq_false_of_hex h0
  have hm : c0 ≠ '-' := hex_ne_char h0 '-' (by decide)
  have hp : c0 ≠ '+' := hex_ne_char h0 '+' (by decide)
  have hx : c1 ≠ 'x' := hex_ne_char h1 'x' (by decide)
  have hX : c1 ≠ 'X' := hex_ne_char h1 'X' (by decide)
  have hv0 : v0 ≤ 15 := hexDigitVal_some_le h0
  have hv1 : v1 ≤ 15 := hexDigitVal_some_le h1
  have hdrop : List.dropWhile isCSpace [c0, c1] = [c0, c1] := by
    rw [List.dropWhile_cons, hs0]
    simp
  have hsplit : splitSign [c0, c1] = (false, [c0, c1]) := by
    simp only [splitSign]
    rw [if_neg hm, if_neg hp]
  have hstrip : stripHexMarker [c0, c1] = [c0, c1] := by
    simp only [stripHexMarker]
    rw [if_neg]
    rintro ⟨-, h | h⟩
    · exact hx h
    · exact hX h
  have hread : readHexDigits [c0, c1] 0 = 16 * v0 + v1 := by
    simp only [readHexDigits, h0, h1]
    ring
  simp only [extractStream]
  rw [hdrop, hsplit]
  simp [hstrip, hread]
  omega

lemma drop_take_pair {l : List Char} {n : Nat} (h : n + 1 < l.length) :
    (l.drop n).take 2 = [l.getD n ' ', l.getD (n + 1) ' '] := by
  have h0 : n < l.length := Nat.lt_of_succ_lt h
  rw [List.drop_eq_getElem_cons h0, List.drop_eq_getElem_cons h,
    List.getD_eq_getElem l ' ' h0, List.getD_eq_getElem l ' ' h]
  rfl

/-! ### The claims -/

/-- C1: for every 32-character input whose characters are all hexadecimal
digits and that is not a known symbolic name, `ConvertStringToGuid`
returns `MFX_ERR_NONE` and an identifier whose byte `i` is the value of
the hex pair at positions `2i`, `2i+1`, most-significant nibble first. -/
theorem convertStringToGuid_hex_decode (s : String) (hname : findUID s = none)
    (h32 : s.length = 32) (hhex : ∀ c ∈ s.toList, (hexDigitVal c).isSome) :
    (ConvertStringToGuid s).1 = MFX_ERR_NONE ∧
    ∀ i : Fin 16, (ConvertStringToGuid s).2.Data i =
      16 * hexValN (charAt s (2 * i.val)) + hexValN (charAt s (2 * i.val + 1)) := by
  have hlen : s.toList.length = 32 := h32
  have hcsg : ConvertStringToGuid s =
      (MFX_ERR_NONE,
       ⟨fun i => extractStream ((s.toList.drop (i.val * 2)).take 2) % 256⟩) := by
    unfold ConvertStringToGuid
    rw [hname]
    simp [h32]
  refine ⟨by rw [hcsg], ?_⟩
  intro i
  rw [hcsg]
  have hi := i.isLt
  have hb0 : i.val * 2 < s.toList.length := by omega
  have hb1 : i.val * 2 + 1 < s.toList.length := by omega
  have hc0 : (hexDigitVal (s.toList.getD (i.val * 2) ' ')).isSome := by
    rw [List.getD_eq_getElem s.toList ' ' hb0]
    exact hhex _ (List.getElem_mem hb0)
  have hc1 : (hexDigitVal (s.toList.getD (i.val * 2 + 1) ' ')).isSome := by
    rw [List.getD_eq_getElem s.toList ' ' hb1]
    exact hhex _ (List.getElem_mem hb1)
  obtain ⟨v0, h0⟩ := Option.isSome_iff_exists.mp hc0
  obtain ⟨v1, h1⟩ := Option.isSome_iff_exists.mp hc1
  show extractStream ((s.toList.drop (i.val * 2)).take 2) % 256 = _
  rw [drop_take_pair hb1, extractStream_pair_hex h0 h1]
  have hv0 := hexDigitVal_some_le h0
  have hv1 := hexDigitVal_some_le h1
  rw [Nat.mod_eq_of_lt (by omega)]
  unfold charAt hexValN
  rw [Nat.mul_comm 2 i.val, h0, h1]
  rfl

/-- C1 witness: a concrete all-hex 32-character string decodes as claimed. -/
theorem convertStringToGuid_hex_decode_witness :
    (ConvertStringToGuid "00112233445566778899aabbccddeeff").1 = MFX_ERR_NONE ∧
    (ConvertStringToGuid "00112233445566778899aabbccddeeff").2.Data 5 =
      16 * hexValN (charAt "00112233445566778899aabbccddeeff" 10) +
        hexValN (charAt "00112233445566778899aabbccddeeff" 11) :=
  ⟨(convertStringToGuid_hex_decode "00112233445566778899aabbccddeeff"
      (by decide) (by decide) (by decide)).1,
   (convertStringToGuid_hex_decode "00112233445566778899aabbccddeeff"
      (by decide) (by decide) (by decide)).2 5⟩

/-- C2: `ConvertStringToGuid` returns the null identifier together with
`MFX_ERR_UNKNOWN` exactly when the input is neither a known symbolic name
nor 32 characters long; in every other case the status is `MFX_ERR_NONE`. -/
theorem convertStringToGuid_unknown_iff (s : String) :
    (((ConvertStringToGuid s).1 = MFX_ERR_UNKNOWN ∧
        (ConvertStringToGuid s).2 = MSDK_PLUGINGUID_NULL) ↔
      (findUID s = none ∧ s.length ≠ 32)) ∧
    (¬(findUID s = none ∧ s.length ≠ 32) →
      (ConvertStringToGuid s).1 = MFX_ERR_NONE) := by
  unfold ConvertStringToGuid
  cases hf : findUID s with
  | some g => simp [MFX_ERR_NONE, MFX_ERR_UNKNOWN]
  | none =>
    by_cases h32 : s.length = 32
    · simp [h32, MFX_ERR_NONE, MFX_ERR_UNKNOWN]
    · simp [h32, MFX_ERR_UNKNOWN]

/-- C2 witness: a 10-character non-name string yields the error and the
null identifier; a known name yields success. -/
theorem convertStringToGuid_unknown_iff_witness :
    ((ConvertStringToGuid "notaplugin").1 = MFX_ERR_UNKNOWN ∧
      (ConvertStringToGuid "notaplugin").2 = MSDK_PLUGINGUID_NULL) ∧
    (ConvertStringToGuid "hevcd_sw").1 = MFX_ERR_NONE :=
  ⟨(convertStringToGuid_unknown_iff "notaplugin").1.mpr (by decide),
   (convertStringToGuid_unknown_iff "hevcd_sw").2 (by decide)⟩

/-- C3 counterexample: the pair `"1z"` contains the non-hex character `z`,
yet byte 0 of the decoded identifier is 1, not 0: the stream conversion
keeps the leading hex digit and stops at the first non-hex character. -/
theorem convertStringToGuid_lenient_counterexample :
    findUID "1z000000000000000000000000000000" = none ∧
    String.length "1z000000000000000000000000000000" = 32 ∧
    hexDigitVal (charAt "1z000000000000000000000000000000" 1) = none ∧
    (ConvertStringToGuid "1z000000000000000000000000000000").1 = MFX_ERR_NONE ∧
    (ConvertStringToGuid "1z000000000000000000000000000000").2.Data 0 = 1 := by
  decide

/-- C3 amended: for a 32-character non-name input, byte `i` is 0 whenever
NEITHER character of the pair at positions `2i`, `2i+1` is a hex digit (a
pair with a leading hex digit followed by a non-hex character instead
parses to the leading digit's value). -/
theorem convertStringToGuid_pair_no_hex_digit (s : String)
    (hname : findUID s = none) (h32 : s.length = 32) (i : Fin 16)
    (h0 : hexDigitVal (charAt s (2 * i.val)) = none)
    (h1 : hexDigitVal (charAt s (2 * i.val + 1)) = none) :
    (ConvertStringToGuid s).2.Data i = 0 := by
  have hlen : s.toList.length = 32 := h32
  have hcsg : ConvertStringToGuid s =
      (MFX_ERR_NONE,
       ⟨fun i => extractStream ((s.toList.drop (i.val * 2)).take 2) % 256⟩) := by
    unfold ConvertStringToGuid
    rw [hname]
    simp [h32]
  rw [hcsg]
  have hi := i.isLt
  have hb1 : i.val * 2 + 1 < s.toList.length := by omega
  show extractStream ((s.toList.drop (i.val * 2)).take 2) % 256 = 0
  rw [drop_take_pair hb1]
  rw [extractStream_all_nonhex ?_]
  · intro c hc
    unfold charAt at h0 h1
    rw [Nat.mul_comm 2 i.val] at h0 h1
    rcases List.mem_pair.mp hc with h | h <;> rw [h]
    · exact h0
    · exact h1

/-- C3 amended witness: the all-non-hex pair `"zz"` decodes to byte 0. -/
theorem convertStringToGuid_pair_no_hex_digit_witness :
    (ConvertStringToGuid "zz000000000000000000000000000000").2.Data 0 = 0 :=
  convertStringToGuid_pair_no_hex_digit "zz000000000000000000000000000000"
    (by decide) (by decide) 0 (by decide) (by decide)

/-- C4: each of the 16 symbolic names resolves, case-sensitively, to its
table constant with `MFX_ERR_NONE` (the hex-decode fallback runs only when
the table lookup fails, so the result is the table entry itself). -/
theorem convertStringToGuid_symbolic_names :
    ConvertStringToGuid "hevcd_sw" = (MFX_ERR_NONE, MFX_PLUGINID_HEVCD_SW) ∧
    ConvertStringToGuid "hevcd_hw" = (MFX_ERR_NONE, MFX_PLUGINID_HEVCD_HW) ∧
    ConvertStringToGuid "hevce_sw" = (MFX_ERR_NONE, MFX_PLUGINID_HEVCE_SW) ∧
    ConvertStringToGuid "hevce_gacc" = (MFX_ERR_NONE, MFX_PLUGINID_HEVCE_GACC) ∧
    ConvertStringToGuid "hevce_hw" = (MFX_ERR_NONE, MFX_PLUGINID_HEVCE_HW) ∧
    ConvertStringToGuid "vp8d_hw" = (MFX_ERR_NONE, MFX_PLUGINID_VP8D_HW) ∧
    ConvertStringToGuid "vp8e_hw" = (MFX_ERR_NONE, MFX_PLUGINID_VP8E_HW) ∧
    ConvertStringToGuid "vp9d_hw" = (MFX_ERR_NONE, MFX_PLUGINID_VP9D_HW) ∧
    ConvertStringToGuid "vp9e_hw" = (MFX_ERR_NONE, MFX_PLUGINID_VP9E_HW) ∧
    ConvertStringToGuid "camera_hw" = (MFX_ERR_NONE, MFX_PLUGINID_CAMERA_HW) ∧
    ConvertStringToGuid "capture_hw" = (MFX_ERR_NONE, MFX_PLUGINID_CAPTURE_HW) ∧
    ConvertStringToGuid "ptir_hw" = (MFX_ERR_NONE, MFX_PLUGINID_ITELECINE_HW) ∧
    ConvertStringToGuid "h264_la_hw" = (MFX_ERR_NONE, MFX_PLUGINID_H264LA_HW) ∧
    ConvertStringToGuid "aacd" = (MFX_ERR_NONE, MFX_PLUGINID_AACD) ∧
    ConvertStringToGuid "aace" = (MFX_ERR_NONE, MFX_PLUGINID_AACE) ∧
    ConvertStringToGuid "hevce_fei_hw" = (MFX_ERR_NONE, MFX_PLUGINID_HEVCE_FEI_HW) := by
  decide

/-- C5: every identifier constant of the name table survives the round
trip through its 32-character hexadecimal rendering, in either digit case,
with `MFX_ERR_NONE`. -/
theorem convertStringToGuid_roundtrip :
    ∀ p ∈ uidTable, ∀ upper : Bool,
      ConvertStringToGuid (guidToHexString upper p.2) = (MFX_ERR_NONE, p.2) := by
  decide

/-- C5 witness: the round trip at the software HEVC decoder constant. -/
theorem convertStringToGuid_roundtrip_witness :
    ConvertStringToGuid (guidToHexString true MFX_PLUGINID_HEVCD_SW) =
      (MFX_ERR_NONE, MFX_PLUGINID_HEVCD_SW) :=
  convertStringToGuid_roundtrip ("hevcd_sw", MFX_PLUGINID_HEVCD_SW) (by decide) true

/-- C6: with the software implementation, only (decode, HEVC) and
(encode, HEVC) have defaults; every other (role, codec) pair, for every
codec value, yields the null identifier. -/
theorem msdkGetPluginUID_software :
    (∀ a w : Bool,
      msdkGetPluginUID a w MFX_IMPL_SOFTWARE MSDK_VDECODE MFX_CODEC_HEVC =
        MFX_PLUGINID_HEVCD_SW) ∧
    (∀ a w : Bool,
      msdkGetPluginUID a w MFX_IMPL_SOFTWARE MSDK_VENCODE MFX_CODEC_HEVC =
        MFX_PLUGINID_HEVCE_SW) ∧
    (∀ (a w : Bool) (type codec : Nat),
      ¬(type = MSDK_VDECODE ∧ codec = MFX_CODEC_HEVC) →
      ¬(type = MSDK_VENCODE ∧ codec = MFX_CODEC_HEVC) →
      msdkGetPluginUID a w MFX_IMPL_SOFTWARE type codec = MSDK_PLUGINGUID_NULL) := by
  refine ⟨by decide, by decide, ?_⟩
  intro a w type codec hd he
  unfold msdkGetPluginUID
  rw [if_pos rfl]
  split_ifs <;> first | rfl | tauto

/-- C6 witness: (decode, VP9) has no software default. -/
theorem msdkGetPluginUID_software_witness :
    msdkGetPluginUID false false MFX_IMPL_SOFTWARE MSDK_VDECODE MFX_CODEC_VP9 =
      MSDK_PLUGINGUID_NULL :=
  msdkGetPluginUID_software.2.2 false false MSDK_VDECODE MFX_CODEC_VP9
    (by decide) (by decide)

/-- C7: the hardware decision table: decode defaults for HEVC/VP8/VP9
except on the platform without hardware decode plugins, where they are
null; encode defaults for HEVC/VP8; the Encode+FEI default for HEVC on
non-Windows platforms only; the ENC-only default for HEVC; null for every
other combination.  The function has no error path. -/
theorem msdkGetPluginUID_hardware :
    (∀ w : Bool,
      msdkGetPluginUID false w MFX_IMPL_HARDWARE MSDK_VDECODE MFX_CODEC_HEVC =
        MFX_PLUGINID_HEVCD_HW ∧
      msdkGetPluginUID false w MFX_IMPL_HARDWARE MSDK_VDECODE MFX_CODEC_VP8 =
        MFX_PLUGINID_VP8D_HW ∧
      msdkGetPluginUID false w MFX_IMPL_HARDWARE MSDK_VDECODE MFX_CODEC_VP9 =
        MFX_PLUGINID_VP9D_HW) ∧
    (∀ w : Bool,
      msdkGetPluginUID true w MFX_IMPL_HARDWARE MSDK_VDECODE MFX_CODEC_HEVC =
        MSDK_PLUGINGUID_NULL ∧
      msdkGetPluginUID true w MFX_IMPL_HARDWARE MSDK_VDECODE MFX_CODEC_VP8 =
        MSDK_PLUGINGUID_NULL ∧
      msdkGetPluginUID true w MFX_IMPL_HARDWARE MSDK_VDECODE MFX_CODEC_VP9 =
        MSDK_PLUGINGUID_NULL) ∧
    (∀ a w : Bool,
      msdkGetPluginUID a w MFX_IMPL_HARDWARE MSDK_VENCODE MFX_CODEC_HEVC =
        MFX_PLUGINID_HEVCE_HW ∧
      msdkGetPluginUID a w MFX_IMPL_HARDWARE MSDK_VENCODE MFX_CODEC_VP8 =
        MFX_PLUGINID_VP8E_HW) ∧
    (∀ a : Bool,
      msdkGetPluginUID a false MFX_IMPL_HARDWARE (MSDK_VENCODE ||| MSDK_FEI)
          MFX_CODEC_HEVC = MFX_PLUGINID_HEVC_FEI_ENCODE) ∧
    (∀ a w : Bool,
      msdkGetPluginUID a w MFX_IMPL_HARDWARE MSDK_VENC MFX_CODEC_HEVC =
        MFX_PLUGINID_HEVCE_FEI_HW) ∧
    (∀ (a w : Bool) (type codec : Nat),
      ¬(a = false ∧ type = MSDK_VDECODE ∧
        (codec = MFX_CODEC_HEVC ∨ codec = MFX_CODEC_VP8 ∨ codec = MFX_CODEC_VP9)) →
      ¬(type = MSDK_VENCODE ∧ (codec = MFX_CODEC_HEVC ∨ codec = MFX_CODEC_VP8)) →
      ¬(w = false ∧ type = (MSDK_VENCODE ||| MSDK_FEI) ∧ codec = MFX_CODEC_HEVC) →
      ¬(type = MSDK_VENC ∧ codec = MFX_CODEC_HEVC) →
      msdkGetPluginUID a w MFX_IMPL_HARDWARE type codec = MSDK_PLUGINGUID_NULL) := by
  refine ⟨by decide, by decide, by decide, by decide, by decide, ?_⟩
  intro a w type codec h1 h2 h3 h4
  unfold msdkGetPluginUID
  rw [if_neg (by decide : ¬MFX_IMPL_HARDWARE = MFX_IMPL_SOFTWARE)]
  split_ifs <;> first | rfl | tauto

/-- C7 witness: on Windows the hardware Encode+FEI case is compiled out,
so (Encode+FEI, HEVC) yields null there. -/
theorem msdkGetPluginUID_hardware_witness :
    msdkGetPluginUID false true MFX_IMPL_HARDWARE (MSDK_VENCODE ||| MSDK_FEI)
      MFX_CODEC_HEVC = MSDK_PLUGINGUID_NULL :=
  msdkGetPluginUID_hardware.2.2.2.2.2 false true (MSDK_VENCODE ||| MSDK_FEI)
    MFX_CODEC_HEVC (by decide) (by decide) (by decide) (by decide)

/-- C8: the hardware Encode+FEI default for HEVC and the ENC-only default
for HEVC are distinct constants: they are not byte-wise equal. -/
theorem hevc_fei_identifiers_distinct :
    AreGuidsEqual
      (msdkGetPluginUID false false MFX_IMPL_HARDWARE (MSDK_VENCODE ||| MSDK_FEI)
        MFX_CODEC_HEVC)
      (msdkGetPluginUID false false MFX_IMPL_HARDWARE MSDK_VENC MFX_CODEC_HEVC)
      = false := by
  decide

/-- C9: `AreGuidsEqual` is true exactly when all 16 bytes agree; it is
reflexive and symmetric, and identifiers differing in exactly one byte
compare unequal. -/
theorem areGuidsEqual_spec :
    (∀ g1 g2 : mfxPluginUID,
      AreGuidsEqual g1 g2 = true ↔ ∀ i, g1.Data i = g2.Data i) ∧
    (∀ g : mfxPluginUID, AreGuidsEqual g g = true) ∧
    (∀ g1 g2 : mfxPluginUID, AreGuidsEqual g1 g2 = AreGuidsEqual g2 g1) ∧
    (∀ (g1 g2 : mfxPluginUID) (j : Fin 16),
      (∀ i, i ≠ j → g1.Data i = g2.Data i) → g1.Data j ≠ g2.Data j →
      AreGuidsEqual g1 g2 = false) := by
  have key : ∀ g1 g2 : mfxPluginUID,
      AreGuidsEqual g1 g2 = true ↔ ∀ i, g1.Data i = g2.Data i := by
    intro g1 g2
    simp [AreGuidsEqual, List.all_eq_true, List.mem_finRange]
  refine ⟨key, fun g => (key g g).mpr fun i => rfl, ?_, ?_⟩
  · intro g1 g2
    by_cases h : ∀ i, g1.Data i = g2.Data i
    · rw [(key g1 g2).mpr h, (key g2 g1).mpr fun i => (h i).symm]
    · have h1 : AreGuidsEqual g1 g2 = false := by
        cases hb : AreGuidsEqual g1 g2
        · rfl
        · exact absurd ((key g1 g2).mp hb) h
      have h2 : AreGuidsEqual g2 g1 = false := by
        cases hb : AreGuidsEqual g2 g1
        · rfl
        · exact absurd (fun i => ((key g2 g1).mp hb i).symm) h
      rw [h1, h2]
  · intro g1 g2 j hothers hj
    cases hb : AreGuidsEqual g1 g2
    · rfl
    · exact absurd ((key g1 g2).mp hb j) hj

/-- C9 witness: two identifiers agreeing everywhere except byte 0 compare
unequal. -/
theorem areGuidsEqual_spec_witness :
    AreGuidsEqual (mkPluginConst 1) (mkPluginConst 2) = false :=
  areGuidsEqual_spec.2.2.2 (mkPluginConst 1) (mkPluginConst 2) 0
    (by decide) (by decide)

/-- C10: any implementation value other than `MFX_IMPL_SOFTWARE` selects
the hardware decision table; the result coincides with the hardware one
for every (role, codec) pair. -/
theorem msdkGetPluginUID_nonsoftware (android windows : Bool)
    (impl type codec : Nat) (h : impl ≠ MFX_IMPL_SOFTWARE) :
    msdkGetPluginUID android windows impl type codec =
      msdkGetPluginUID android windows MFX_IMPL_HARDWARE type codec := by
  unfold msdkGetPluginUID
  rw [if_neg h, if_neg (by decide : ¬MFX_IMPL_HARDWARE = MFX_IMPL_SOFTWARE)]

/-- C10 witness: `MFX_IMPL_AUTO` behaves as the hardware class. -/
theorem msdkGetPluginUID_nonsoftware_witness :
    msdkGetPluginUID false false MFX_IMPL_AUTO MSDK_VDECODE MFX_CODEC_HEVC =
      msdkGetPluginUID false false MFX_IMPL_HARDWARE MSDK_VDECODE MFX_CODEC_HEVC :=
  msdkGetPluginUID_nonsoftware false false MFX_IMPL_AUTO MSDK_VDECODE
    MFX_CODEC_HEVC (by decide)
